import Mathlib

/-!
# Verification of the assistant-bot contact manager

Shallow embedding of the two Python modules of the repository:

* `assistant_bot.py` — the command dispatcher: a read-eval loop over a plain
  `dict` mapping contact names to phone strings (namespace `AssistantBot`).
* `assistant_bot_cli.py` — the address-book data structures: `Phone`
  (validated), `Record`, `AddressBook` (namespace `AssistantBotCli`).

Python strings are modelled as `List Char` (`PyStr`).  Character-level
operations (`str.isdigit`, `str.lower`, `str.isspace`) are modelled on the
ASCII range, which covers every input the specification and the claims talk
about; Python additionally accepts some non-ASCII Unicode characters in these
predicates, which is outside the scope of this model.  Python exceptions are
modelled with `Except`: a function that can raise returns
`Except PyErr _` / `Except CliErr _`, and an uncaught exception surfaces as
`.error`.  Python `dict`s are modelled as association lists whose update
replaces the binding in place and whose insertion appends at the end,
matching CPython's guaranteed insertion-order semantics.
-/

set_option autoImplicit false

/-- Python `str`, modelled as a list of characters. -/
abbrev PyStr := List Char

/-- `s.split()` with no separator: split on runs of whitespace, discarding
empty pieces (so leading/trailing whitespace yields no empty tokens).
`acc` holds the characters of the current token, reversed. -/
def pySplitAux : List Char → List Char → List PyStr
  | [], acc => if acc = [] then [] else [acc.reverse]
  | c :: cs, acc =>
    if c.isWhitespace then
      if acc = [] then pySplitAux cs [] else acc.reverse :: pySplitAux cs []
    else pySplitAux cs (c :: acc)

/-- Python `str.split()` (no argument): whitespace-run split. -/
def pySplit (s : PyStr) : List PyStr := pySplitAux s []

/-- Python `str.lower()` (ASCII range). -/
def pyLower (s : PyStr) : PyStr := s.map Char.toLower

/-- Python `str.isdigit()` (ASCII range): non-empty and every character a
decimal digit.  (Python also accepts some non-ASCII digit characters.) -/
def pyIsDigit (s : PyStr) : Bool := !s.isEmpty && s.all Char.isDigit

/-- Python `dict` membership `k in d` on the association-list model. -/
def dictMem {β : Type} (d : List (PyStr × β)) (k : PyStr) : Bool :=
  d.any (fun p => decide (p.1 = k))

/-- Python `d.get(k, None)` / `d[k]`-after-membership-check: first binding of
`k`, if any. -/
def dictGet {β : Type} : List (PyStr × β) → PyStr → Option β
  | [], _ => none
  | p :: rest, k => if p.1 = k then some p.2 else dictGet rest k

/-- Python `d[k] = v`: replace the binding of `k` in place when present
(a real `dict` has at most one), otherwise append the new binding. -/
def dictInsert {β : Type} (d : List (PyStr × β)) (k : PyStr) (v : β) :
    List (PyStr × β) :=
  if dictMem d k then
    d.map (fun p => if p.1 = k then (k, v) else p)
  else d ++ [(k, v)]

/-- Python `del d[k]` on the association-list model: remove the first binding
of `k` (a real `dict` has at most one, so this is exactly `del`). -/
def dictRemove {β : Type} : List (PyStr × β) → PyStr → List (PyStr × β)
  | [], _ => []
  | p :: rest, k => if p.1 = k then rest else p :: dictRemove rest k

/-- Decidable equality on `Except`, used to evaluate the embedding on
concrete inputs. -/
instance {ε α : Type} [DecidableEq ε] [DecidableEq α] :
    DecidableEq (Except ε α) := fun
  | .error a, .error b =>
    if h : a = b then .isTrue (by rw [h]) else .isFalse (by simp [h])
  | .error _, .ok _ => .isFalse (by simp)
  | .ok _, .error _ => .isFalse (by simp)
  | .ok a, .ok b =>
    if h : a = b then .isTrue (by rw [h]) else .isFalse (by simp [h])

namespace AssistantBotCli

/-- Exceptions raised by `assistant_bot_cli.py`; the module only ever raises
`ValueError`, with the message distinguishing validation failures
(`"Phone number must be 10 digits"`) from lookup failures
(`"Phone not found"`). -/
inductive CliErr where
  | valueError (msg : PyStr)
deriving DecidableEq, Repr

/-- `Name(Field)`: plain wrapper around the stored value. -/
structure Name where
  value : PyStr
deriving DecidableEq, Repr

/-- `Phone(Field)`: wrapper around the stored value.  Validation happens in
`Phone.init` (the embedding of `Phone.__init__`); note that the `value`
field itself is unconstrained, exactly as in the source, where code can
assign `phone.value` directly. -/
structure Phone where
  value : PyStr
deriving DecidableEq, Repr

/-- `Phone.__init__`: raises `ValueError` unless `value.isdigit()` and
`len(value) == 10`. -/
def Phone.init (value : PyStr) : Except CliErr Phone :=
  if !pyIsDigit value || value.length ≠ 10 then
    .error (.valueError ("Phone number must be 10 digits").toList)
  else .ok ⟨value⟩

/-- `Record`: one contact — a `Name` and a list of `Phone`s. -/
structure Record where
  name : Name
  phones : List Phone
deriving DecidableEq, Repr

/-- `Record.__init__(name)`: empty phone list. -/
def Record.init (name : PyStr) : Record := ⟨⟨name⟩, []⟩

/-- `Record.add_phone`: construct a `Phone` (validating) and append it. -/
def Record.add_phone (r : Record) (phone : PyStr) : Except CliErr Record :=
  match Phone.init phone with
  | .error e => .error e
  | .ok p => .ok ⟨r.name, r.phones ++ [p]⟩

/-- `Record.remove_phone`:
`self.phones = [p for p in self.phones if p.value != phone]`. -/
def Record.remove_phone (r : Record) (phone : PyStr) : Record :=
  ⟨r.name, r.phones.filter (fun p => decide (p.value ≠ phone))⟩

/-- The loop body of `Record.edit_phone`: walk the phone list; at the first
phone whose value equals `old`, assign `phone.value = new_phone` (no
validation — the `Phone` constructor is not invoked) and stop.  `none`
means the loop fell through (the source then raises). -/
def editPhoneList (old new : PyStr) : List Phone → Option (List Phone)
  | [] => none
  | p :: rest =>
    if p.value = old then some (⟨new⟩ :: rest)
    else (editPhoneList old new rest).map (p :: ·)

/-- `Record.edit_phone(old_phone, new_phone)`: replace the first occurrence
of `old_phone`, raising `ValueError("Phone not found")` when absent. -/
def Record.edit_phone (r : Record) (old new : PyStr) : Except CliErr Record :=
  match editPhoneList old new r.phones with
  | some ps => .ok ⟨r.name, ps⟩
  | none => .error (.valueError ("Phone not found").toList)

/-- `Record.find_phone(phone)`: first phone value equal to `phone`, else
`None`. -/
def Record.find_phone (r : Record) (phone : PyStr) : Option PyStr :=
  (r.phones.find? (fun p => decide (p.value = phone))).map (fun p => p.value)

/-- `AddressBook(UserDict)`: the underlying `self.data` dict, keyed by
name. -/
structure AddressBook where
  data : List (PyStr × Record)
deriving DecidableEq, Repr

/-- `AddressBook.add_record(record)`:
`self.data[record.name.value] = record`. -/
def AddressBook.add_record (book : AddressBook) (record : Record) :
    AddressBook :=
  ⟨dictInsert book.data record.name.value record⟩

/-- `AddressBook.find(name)`: `self.data.get(name, None)`. -/
def AddressBook.find (book : AddressBook) (name : PyStr) : Option Record :=
  dictGet book.data name

/-- `AddressBook.delete(name)`: `if name in self.data: del self.data[name]`. -/
def AddressBook.delete (book : AddressBook) (name : PyStr) : AddressBook :=
  if dictMem book.data name then ⟨dictRemove book.data name⟩ else book

end AssistantBotCli

namespace AssistantBot

/-- The exceptions the dispatcher module can meet: exactly the three kinds
the `input_error` decorator catches. -/
inductive PyErr where
  | valueError (msg : PyStr)
  | keyError (msg : PyStr)
  | indexError (msg : PyStr)
deriving DecidableEq, Repr

/-- The dispatcher's contact book: a plain `dict` from name to phone string
(`defaultdict(str)` in the source; its default factory is never triggered,
since every subscript read is guarded by a membership test). -/
abbrev Contacts := List (PyStr × PyStr)

/-- Python renders the argument of a `KeyError` with `repr`, i.e. wrapped in
single quotes (for messages without characters that `repr` escapes). -/
def pyKeyRepr (m : PyStr) : PyStr :=
  Char.ofNat 39 :: m ++ [Char.ofNat 39]

/-- The message the `input_error` decorator returns for each caught
exception kind. -/
def input_error_msg : PyErr → PyStr
  | .valueError _ => ("Give me name and phone please.").toList
  | .keyError m => ("Given key not found ").toList ++ pyKeyRepr m
  | .indexError _ => ("Insufficient data provided.").toList

/-- The `input_error` decorator around a handler that returns a message and
mutates the contact book: a raised exception is converted to its message and
the book is left as it was at raise time (no handler mutates before
raising). -/
def runHandler (contacts : Contacts)
    (r : Except PyErr (PyStr × Contacts)) : PyStr × Contacts :=
  match r with
  | .ok sc => sc
  | .error e => (input_error_msg e, contacts)

/-- The `input_error` decorator around a handler that only returns a
message. -/
def runMsg : Except PyErr PyStr → PyStr
  | .ok s => s
  | .error e => input_error_msg e

/-- `parse_input(user_input)`: `cmd, *args = user_input.split()` raises
`ValueError` when the split is empty (no token to unpack); otherwise the
lowered command and the argument list. -/
def parse_input (user_input : PyStr) : Except PyErr (PyStr × List PyStr) :=
  match pySplit user_input with
  | [] =>
    .error (.valueError
      ("not enough values to unpack (expected at least 1, got 0)").toList)
  | cmd :: args => .ok (pyLower cmd, args)

/-- `add_contact(args, contacts)` before the decorator:
`name, phone = args` raises `ValueError` unless `args` has exactly two
elements; then `contacts[name] = phone` and `"Contact added."`.  Note: no
validation of the phone string whatsoever. -/
def add_contact (args : List PyStr) (contacts : Contacts) :
    Except PyErr (PyStr × Contacts) :=
  match args with
  | [name, phone] => .ok (("Contact added.").toList, dictInsert contacts name phone)
  | _ => .error (.valueError ("unpack").toList)

/-- `change_contact(args, contacts)` before the decorator: unpack two
arguments, update when the name exists, otherwise raise `KeyError`. -/
def change_contact (args : List PyStr) (contacts : Contacts) :
    Except PyErr (PyStr × Contacts) :=
  match args with
  | [name, phone] =>
    if dictMem contacts name then
      .ok (("Contact updated.").toList, dictInsert contacts name phone)
    else
      .error (.keyError (("Contact ").toList ++ name ++ (" not found.").toList))
  | _ => .error (.valueError ("unpack").toList)

/-- `show_phone(args, contacts)` before the decorator: `args[0]` raises
`IndexError` on an empty list; then the stored phone when the name is
present, else the literal `"Contact not found."`. -/
def show_phone (args : List PyStr) (contacts : Contacts) :
    Except PyErr PyStr :=
  match args with
  | [] => .error (.indexError ("list index out of range").toList)
  | name :: _ =>
    match dictGet contacts name with
    | some phone => .ok phone
    | none => .ok ("Contact not found.").toList

/-- `show_all(contacts)`: one `name: phone` line per entry in dict order, or
the fixed no-contacts message. -/
def show_all (contacts : Contacts) : PyStr :=
  match contacts with
  | [] => ("No contacts found.").toList
  | _ =>
    List.intercalate [Char.ofNat 10]
      (contacts.map (fun p => p.1 ++ (": ").toList ++ p.2))

/-- Outcome of one iteration of `main`'s `while True` loop. -/
inductive StepResult where
  /-- `break` was reached: `"Good bye!"` is printed and the loop ends. -/
  | halt (msg : PyStr)
  /-- `msg` is printed and the loop runs again on the updated book. -/
  | next (msg : PyStr) (contacts : Contacts)
deriving DecidableEq, Repr

/-- The `if`/`elif` chain in the body of `main`'s loop, dispatching on the
already-lowered command token. -/
def dispatchCmd (command : PyStr) (args : List PyStr) (contacts : Contacts) :
    Except PyErr StepResult :=
  if command = ("close").toList ∨ command = ("exit").toList then
      .ok (.halt ("Good bye!").toList)
    else if command = ("hello").toList then
      .ok (.next ("How can I help you?").toList contacts)
    else if command = ("add").toList then
      let mc := runHandler contacts (add_contact args contacts)
      .ok (.next mc.1 mc.2)
    else if command = ("change").toList then
      let mc := runHandler contacts (change_contact args contacts)
      .ok (.next mc.1 mc.2)
    else if command = ("phone").toList then
      .ok (.next (runMsg (show_phone args contacts)) contacts)
    else if command = ("all").toList then
      .ok (.next (show_all contacts) contacts)
    else
      .ok (.next ("Invalid command.").toList contacts)

/-- One iteration of the `main` loop on input `line`: parse (uncaught
`ValueError` on an empty split propagates — `parse_input` is *not*
decorated), then dispatch on the lowered first token. -/
def processLine (line : PyStr) (contacts : Contacts) :
    Except PyErr StepResult :=
  match parse_input line with
  | .error e => .error e
  | .ok (command, args) => dispatchCmd command args contacts

end AssistantBot

/-! ## Association-list dictionary lemmas -/

/-- A key bound by nothing in the dict is looked up to `none`. -/
theorem dictGet_eq_none {β : Type} (d : List (PyStr × β)) (k : PyStr)
    (h : ∀ p ∈ d, p.1 ≠ k) : dictGet d k = none := by
  induction d with
  | nil => rfl
  | cons p rest ih =>
    simp only [dictGet]
    rw [if_neg (h p (List.mem_cons_self p rest))]
    exact ih (fun q hq => h q (List.mem_cons_of_mem p hq))

/-- A key bound by nothing in the dict is not a member. -/
theorem dictMem_eq_false {β : Type} (d : List (PyStr × β)) (k : PyStr)
    (h : ∀ p ∈ d, p.1 ≠ k) : dictMem d k = false := by
  simp only [dictMem, List.any_eq_false, decide_eq_true_eq]
  exact h

/-- A non-member of the dict is bound by nothing. -/
theorem forall_ne_of_dictMem_eq_false {β : Type} (d : List (PyStr × β))
    (k : PyStr) (h : ¬ dictMem d k = true) : ∀ p ∈ d, p.1 ≠ k := by
  intro p hp hpk
  refine h ?_
  simp only [dictMem, List.any_eq_true, decide_eq_true_eq]
  exact ⟨p, hp, hpk⟩

/-- Updating the binding of `k` in place makes `k` look up to the new
value. -/
theorem dictGet_map_update {β : Type} (d : List (PyStr × β)) (k : PyStr)
    (v : β) (hmem : dictMem d k = true) :
    dictGet (d.map (fun p => if p.1 = k then (k, v) else p)) k = some v := by
  induction d with
  | nil => simp [dictMem] at hmem
  | cons p rest ih =>
    by_cases hp : p.1 = k
    · simp [dictGet, hp]
    · have hrest : dictMem rest k = true := by
        simp only [dictMem, List.any_cons, Bool.or_eq_true,
          decide_eq_true_eq] at hmem
        rcases hmem with h | h
        · exact absurd h hp
        · exact h
      simp [dictGet, hp, ih hrest]

/-- Appending a fresh binding of `k` makes `k` look up to the new value. -/
theorem dictGet_append_new {β : Type} (d : List (PyStr × β)) (k : PyStr)
    (v : β) (h : ∀ p ∈ d, p.1 ≠ k) :
    dictGet (d ++ [(k, v)]) k = some v := by
  induction d with
  | nil => simp [dictGet]
  | cons p rest ih =>
    simp only [List.cons_append, dictGet]
    rw [if_neg (h p (List.mem_cons_self p rest))]
    exact ih (fun q hq => h q (List.mem_cons_of_mem p hq))

/-- After a dict assignment `d[k] = v`, looking up `k` yields `v`. -/
theorem dictGet_dictInsert {β : Type} (d : List (PyStr × β)) (k : PyStr)
    (v : β) : dictGet (dictInsert d k v) k = some v := by
  unfold dictInsert
  by_cases hmem : dictMem d k = true
  · rw [if_pos hmem]
    exact dictGet_map_update d k v hmem
  · rw [if_neg hmem]
    exact dictGet_append_new d k v (forall_ne_of_dictMem_eq_false d k hmem)

/-- With unique keys, `del d[k]` makes `k` look up to `none`. -/
theorem dictGet_dictRemove_self {β : Type} (d : List (PyStr × β)) (k : PyStr)
    (hnd : (d.map Prod.fst).Nodup) : dictGet (dictRemove d k) k = none := by
  induction d with
  | nil => rfl
  | cons p rest ih =>
    simp only [List.map_cons, List.nodup_cons] at hnd
    simp only [dictRemove]
    by_cases hp : p.1 = k
    · rw [if_pos hp]
      apply dictGet_eq_none
      intro q hq hqk
      exact hnd.1 (by rw [hp, ← hqk]; exact List.mem_map_of_mem Prod.fst hq)
    · rw [if_neg hp]
      simp only [dictGet]
      rw [if_neg hp]
      exact ih hnd.2

/-- `del d[k]` leaves the lookup of every other key unchanged. -/
theorem dictGet_dictRemove_other {β : Type} (d : List (PyStr × β))
    (k other : PyStr) (hne : other ≠ k) :
    dictGet (dictRemove d k) other = dictGet d other := by
  induction d with
  | nil => rfl
  | cons p rest ih =>
    simp only [dictRemove]
    by_cases hp : p.1 = k
    · rw [if_pos hp]
      have hpo : p.1 ≠ other := by rw [hp]; exact fun hh => hne hh.symm
      simp [dictGet, hpo]
    · rw [if_neg hp]
      simp only [dictGet]
      by_cases ho : p.1 = other
      · rw [if_pos ho, if_pos ho]
      · rw [if_neg ho, if_neg ho]
        exact ih

namespace AssistantBotCli

/-- When `old` matches no phone, the `edit_phone` loop falls through. -/
theorem editPhoneList_eq_none (old new : PyStr) (ps : List Phone)
    (h : ∀ p ∈ ps, p.value ≠ old) : editPhoneList old new ps = none := by
  induction ps with
  | nil => rfl
  | cons p rest ih =>
    simp only [editPhoneList]
    rw [if_neg (h p (List.mem_cons_self p rest)),
      ih (fun q hq => h q (List.mem_cons_of_mem p hq))]
    rfl

/-- C4: constructing a `Phone` from `s` succeeds exactly when `s` is a
string of ten decimal digits, and fails with the validation `ValueError`
otherwise; in particular `"12345"`, `"12345678901"` and `"12a4567890"` are
rejected while `"1234567890"` is accepted. -/
theorem phone_init_ten_digits :
    (∀ s : PyStr, (∃ p, Phone.init s = .ok p) ↔
      (s.length = 10 ∧ ∀ c ∈ s, c.isDigit = true)) ∧
    Phone.init ("12345").toList =
      .error (.valueError ("Phone number must be 10 digits").toList) ∧
    Phone.init ("12345678901").toList =
      .error (.valueError ("Phone number must be 10 digits").toList) ∧
    Phone.init ("12a4567890").toList =
      .error (.valueError ("Phone number must be 10 digits").toList) ∧
    Phone.init ("1234567890").toList = .ok ⟨("1234567890").toList⟩ := by
  refine ⟨?_, by decide, by decide, by decide, by decide⟩
  intro s
  unfold Phone.init
  by_cases hc : (!pyIsDigit s || decide (s.length ≠ 10)) = true
  · rw [if_pos hc]
    simp only [Bool.or_eq_true] at hc
    constructor
    · rintro ⟨p, hp⟩
      exact Except.noConfusion hp
    · rintro ⟨hlen, hdig⟩
      exfalso
      rcases hc with h1 | h2
      · have hne : s.isEmpty = false := by
          cases s with
          | nil => simp at hlen
          | cons a l => rfl
        have hall : pyIsDigit s = true := by
          unfold pyIsDigit
          rw [hne]
          simp only [Bool.not_false, Bool.true_and, List.all_eq_true]
          exact fun c hcs => hdig c hcs
        rw [hall] at h1
        exact Bool.noConfusion h1
      · exact (of_decide_eq_true h2) hlen
  · rw [if_neg hc]
    simp only [Bool.or_eq_true, not_or, Bool.not_eq_true',
      Bool.not_eq_false, decide_eq_true_eq, not_not] at hc
    obtain ⟨hdig, hlen⟩ := hc
    constructor
    · intro _
      refine ⟨hlen, ?_⟩
      unfold pyIsDigit at hdig
      simp only [Bool.and_eq_true, List.all_eq_true] at hdig
      exact fun c hcs => hdig.2 c hcs
    · intro _
      exact ⟨⟨s⟩, rfl⟩

/-- C2: the code diverges from the claim — `edit_phone` assigns the new
value directly to the matched phone's `value` attribute, bypassing
`Phone.__init__`: replacing `"1234567890"` with the 3-character string
`"123"` succeeds and stores `"123"`, even though constructing a `Phone`
from `"123"` fails with the validation `ValueError`. -/
theorem edit_phone_skips_validation :
    Record.edit_phone ⟨⟨("John").toList⟩, [⟨("1234567890").toList⟩]⟩
        ("1234567890").toList ("123").toList =
      .ok ⟨⟨("John").toList⟩, [⟨("123").toList⟩]⟩ ∧
    Phone.init ("123").toList =
      .error (.valueError ("Phone number must be 10 digits").toList) := by
  decide

/-- C5: when `old` occurs among none of the record's phones, `edit_phone`
raises the not-found `ValueError("Phone not found")`, whatever `new` is.
(In the embedding an error result carries no record: the source's loop
mutates nothing before raising, so the phone list is unchanged.) -/
theorem edit_phone_absent (r : Record) (old new : PyStr)
    (h : ∀ p ∈ r.phones, p.value ≠ old) :
    r.edit_phone old new =
      .error (.valueError ("Phone not found").toList) := by
  unfold Record.edit_phone
  rw [editPhoneList_eq_none old new r.phones h]

/-- Witness for `edit_phone_absent`: a record holding only `"5555555555"`,
edited at the absent old value `"123"`. -/
theorem edit_phone_absent_witness :
    (∀ p ∈ (⟨⟨("John").toList⟩, [⟨("5555555555").toList⟩]⟩ : Record).phones,
      p.value ≠ ("123").toList) ∧
    Record.edit_phone ⟨⟨("John").toList⟩, [⟨("5555555555").toList⟩]⟩
        ("123").toList ("1112223333").toList =
      .error (.valueError ("Phone not found").toList) :=
  ⟨by decide, edit_phone_absent _ _ _ (by decide)⟩

/-- C6: after `add_record r`, `find` on `r`'s name returns a record bearing
`r`'s name; and `find` on a name bound by no entry returns `none`
(Python `None`), not an error. -/
theorem add_record_find (book : AddressBook) (r : Record) (name : PyStr)
    (habs : ∀ p ∈ book.data, p.1 ≠ name) :
    (∃ rec, (book.add_record r).find r.name.value = some rec ∧
      rec.name = r.name) ∧
    book.find name = none := by
  constructor
  · exact ⟨r, dictGet_dictInsert book.data r.name.value r, rfl⟩
  · exact dictGet_eq_none book.data name habs

/-- Witness for `add_record_find`: adding `"John"` to the empty book and
looking up `"John"` and the absent `"Jane"`. -/
theorem add_record_find_witness :
    (∀ p ∈ (⟨[]⟩ : AddressBook).data, p.1 ≠ ("Jane").toList) ∧
    ((∃ rec, ((⟨[]⟩ : AddressBook).add_record
        (Record.init ("John").toList)).find
          (Record.init ("John").toList).name.value = some rec ∧
      rec.name = (Record.init ("John").toList).name) ∧
    (⟨[]⟩ : AddressBook).find ("Jane").toList = none) :=
  ⟨by decide,
    add_record_find ⟨[]⟩ (Record.init ("John").toList) (("Jane").toList)
      (by decide)⟩

/-- C7: `remove_phone v` removes every phone whose value equals `v`
literally — the result is a sublist of the original (remaining phones keep
their original order), contains no phone valued `v`, and keeps every phone
with a different value; when `v` is absent it is a no-op, and it never
raises (it is a total function of the record). -/
theorem remove_phone_removes_all (r : Record) (v : PyStr) :
    (r.remove_phone v).name = r.name ∧
    List.Sublist (r.remove_phone v).phones r.phones ∧
    (∀ p ∈ (r.remove_phone v).phones, p.value ≠ v) ∧
    (∀ p ∈ r.phones, p.value ≠ v → p ∈ (r.remove_phone v).phones) ∧
    ((∀ p ∈ r.phones, p.value ≠ v) → r.remove_phone v = r) := by
  unfold Record.remove_phone
  refine ⟨rfl, List.filter_sublist _, ?_, ?_, ?_⟩
  · intro p hp
    have h2 := (List.mem_filter.mp hp).2
    simpa using h2
  · intro p hp hne
    exact List.mem_filter.mpr ⟨hp, by simpa using hne⟩
  · intro h
    have hself : r.phones.filter (fun p => decide (p.value ≠ v)) = r.phones :=
      List.filter_eq_self.mpr (fun p hp => by simpa using h p hp)
    rw [hself]

/-- C8: `delete name` removes that name's entry when present (under the
dict invariant of unique keys), leaves every other name's lookup unchanged,
and is a no-op raising no error when the name is absent. -/
theorem delete_entry (book : AddressBook) (name other : PyStr)
    (hnd : (book.data.map Prod.fst).Nodup) (hne : other ≠ name) :
    (book.delete name).find name = none ∧
    (book.delete name).find other = book.find other ∧
    ((∀ p ∈ book.data, p.1 ≠ name) → book.delete name = book) := by
  unfold AddressBook.delete
  by_cases hmem : dictMem book.data name = true
  · rw [if_pos hmem]
    refine ⟨dictGet_dictRemove_self book.data name hnd,
      dictGet_dictRemove_other book.data name other hne, ?_⟩
    intro h
    rw [dictMem_eq_false book.data name h] at hmem
    exact Bool.noConfusion hmem
  · rw [if_neg hmem]
    exact ⟨dictGet_eq_none book.data name
        (forall_ne_of_dictMem_eq_false book.data name hmem),
      rfl, fun _ => rfl⟩

/-- Witness for `delete_entry`: a one-entry book, deleting the present
`"Jane"` and checking the other name `"John"`. -/
theorem delete_entry_witness :
    ((((⟨[(("Jane").toList, Record.init ("Jane").toList)]⟩ :
        AddressBook).data.map Prod.fst).Nodup) ∧
      ("John").toList ≠ ("Jane").toList) ∧
    (((⟨[(("Jane").toList, Record.init ("Jane").toList)]⟩ :
        AddressBook).delete ("Jane").toList).find ("Jane").toList = none ∧
      ((⟨[(("Jane").toList, Record.init ("Jane").toList)]⟩ :
        AddressBook).delete ("Jane").toList).find ("John").toList =
        (⟨[(("Jane").toList, Record.init ("Jane").toList)]⟩ :
          AddressBook).find ("John").toList ∧
      ((∀ p ∈ (⟨[(("Jane").toList, Record.init ("Jane").toList)]⟩ :
          AddressBook).data, p.1 ≠ ("Jane").toList) →
        (⟨[(("Jane").toList, Record.init ("Jane").toList)]⟩ :
          AddressBook).delete ("Jane").toList =
          ⟨[(("Jane").toList, Record.init ("Jane").toList)]⟩)) :=
  ⟨⟨by decide, by decide⟩,
    delete_entry ⟨[(("Jane").toList, Record.init ("Jane").toList)]⟩
      (("Jane").toList) (("John").toList) (by decide) (by decide)⟩

/-- Witness for `remove_phone_removes_all`: a record with two phones, one of
which is removed. -/
theorem remove_phone_removes_all_witness :
    ((⟨⟨("John").toList⟩, [⟨("1234567890").toList⟩, ⟨("5555555555").toList⟩]⟩ :
        Record).remove_phone ("1234567890").toList).name =
      (⟨⟨("John").toList⟩,
        [⟨("1234567890").toList⟩, ⟨("5555555555").toList⟩]⟩ : Record).name ∧
    List.Sublist
      ((⟨⟨("John").toList⟩,
        [⟨("1234567890").toList⟩, ⟨("5555555555").toList⟩]⟩ :
          Record).remove_phone ("1234567890").toList).phones
      (⟨⟨("John").toList⟩,
        [⟨("1234567890").toList⟩, ⟨("5555555555").toList⟩]⟩ : Record).phones ∧
    (∀ p ∈ ((⟨⟨("John").toList⟩,
        [⟨("1234567890").toList⟩, ⟨("5555555555").toList⟩]⟩ :
          Record).remove_phone ("1234567890").toList).phones,
      p.value ≠ ("1234567890").toList) ∧
    (∀ p ∈ (⟨⟨("John").toList⟩,
        [⟨("1234567890").toList⟩, ⟨("5555555555").toList⟩]⟩ : Record).phones,
      p.value ≠ ("1234567890").toList →
        p ∈ ((⟨⟨("John").toList⟩,
          [⟨("1234567890").toList⟩, ⟨("5555555555").toList⟩]⟩ :
            Record).remove_phone ("1234567890").toList).phones) ∧
    ((∀ p ∈ (⟨⟨("John").toList⟩,
        [⟨("1234567890").toList⟩, ⟨("5555555555").toList⟩]⟩ : Record).phones,
      p.value ≠ ("1234567890").toList) →
        (⟨⟨("John").toList⟩,
          [⟨("1234567890").toList⟩, ⟨("5555555555").toList⟩]⟩ :
            Record).remove_phone ("1234567890").toList =
          ⟨⟨("John").toList⟩,
            [⟨("1234567890").toList⟩, ⟨("5555555555").toList⟩]⟩) :=
  remove_phone_removes_all
    ⟨⟨("John").toList⟩, [⟨("1234567890").toList⟩, ⟨("5555555555").toList⟩]⟩
    (("1234567890").toList)

end AssistantBotCli

namespace AssistantBot

/-- When the input line splits into at least one token, `parse_input`
succeeds and one loop iteration is the dispatch on the lowered first
token. -/
theorem processLine_cons (line : PyStr) (tok : PyStr) (args : List PyStr)
    (contacts : Contacts) (hsplit : pySplit line = tok :: args) :
    processLine line contacts = dispatchCmd (pyLower tok) args contacts := by
  unfold processLine parse_input
  rw [hsplit]

/-- C1 (counterexample): on the empty input line, `split()` yields no token,
so the unpacking in `parse_input` raises `ValueError`; `parse_input` is not
wrapped by `input_error` and `main` does not catch it, so the error
propagates out of the loop as a crash instead of a user-facing message. -/
theorem processLine_empty_line_raises :
    processLine ("").toList [] =
      .error (.valueError
        ("not enough values to unpack (expected at least 1, got 0)").toList) := by
  decide

/-- C1 (amended): for every input line whose whitespace split is non-empty,
the loop body returns normally — no parsing or dispatching error escapes:
the result is the farewell (for `exit`/`close`) or a user-facing message
with the loop continuing on an updated book. -/
theorem processLine_no_crash (line : PyStr) (contacts : Contacts)
    (h : pySplit line ≠ []) :
    ∃ r, processLine line contacts = .ok r ∧
      (pyLower ((pySplit line).headI) ≠ ("close").toList →
       pyLower ((pySplit line).headI) ≠ ("exit").toList →
       ∃ msg c, r = .next msg c) := by
  obtain ⟨tok, args, hsplit⟩ : ∃ t a, pySplit line = t :: a := by
    cases hs : pySplit line with
    | nil => exact absurd hs h
    | cons t a => exact ⟨t, a, rfl⟩
  rw [processLine_cons line tok args contacts hsplit, hsplit]
  simp only [List.headI]
  unfold dispatchCmd
  by_cases h1 : pyLower tok = ("close").toList ∨ pyLower tok = ("exit").toList
  · rw [if_pos h1]
    exact ⟨_, rfl, fun hc he => absurd h1 (not_or.mpr ⟨hc, he⟩)⟩
  · rw [if_neg h1]
    split_ifs <;> exact ⟨_, rfl, fun _ _ => ⟨_, _, rfl⟩⟩

/-- Witness for `processLine_no_crash` on the line `"hello"`. -/
theorem processLine_no_crash_witness :
    pySplit ("hello").toList ≠ [] ∧
    ∃ r, processLine ("hello").toList [] = .ok r ∧
      (pyLower ((pySplit ("hello").toList).headI) ≠ ("close").toList →
       pyLower ((pySplit ("hello").toList).headI) ≠ ("exit").toList →
       ∃ msg c, r = .next msg c) :=
  ⟨by decide, processLine_no_crash (("hello").toList) [] (by decide)⟩

/-- C3 (counterexample): `add John 123` is accepted by the dispatcher — the
reply is `"Contact added."` and the 3-character phone `"123"` is stored in
the book, although it is not a string of exactly 10 decimal digits. -/
theorem add_contact_accepts_bad_phone :
    processLine ("add John 123").toList [] =
      .ok (.next ("Contact added.").toList
        [(("John").toList, ("123").toList)]) ∧
    ¬ ((("123").toList : PyStr).length = 10 ∧
      ∀ c ∈ (("123").toList : PyStr), c.isDigit = true) := by
  refine ⟨by decide, ?_⟩
  rintro ⟨hlen, -⟩
  exact absurd hlen (by decide)

/-- C3 (amended): for every `add <name> <phone>` command with exactly two
arguments, the dispatcher stores the phone string in the contact book
unchanged and unvalidated — whatever its format — and replies
`"Contact added."`; no validation failure is ever reported by `add`. -/
theorem add_contact_stores_unvalidated (name phone : PyStr)
    (contacts : Contacts) :
    runHandler contacts (add_contact [name, phone] contacts) =
      (("Contact added.").toList, dictInsert contacts name phone) := rfl

/-- C9: the dispatcher lowers the first whitespace-separated token and
compares it with the seven verbs; any line whose lowered first token is
none of them gets the literal reply `"Invalid command."` and the book is
untouched. -/
theorem dispatch_invalid_command (line : PyStr) (contacts : Contacts)
    (tok : PyStr) (args : List PyStr)
    (hsplit : pySplit line = tok :: args)
    (hverb : pyLower tok ∉
      [("hello").toList, ("add").toList, ("change").toList,
       ("phone").toList, ("all").toList, ("exit").toList,
       ("close").toList]) :
    processLine line contacts =
      .ok (.next ("Invalid command.").toList contacts) := by
  simp only [List.mem_cons, List.not_mem_nil, or_false, not_or] at hverb
  obtain ⟨h1, h2, h3, h4, h5, h6, h7⟩ := hverb
  rw [processLine_cons line tok args contacts hsplit]
  unfold dispatchCmd
  rw [if_neg (not_or.mpr ⟨h7, h6⟩), if_neg h1, if_neg h2, if_neg h3,
    if_neg h4, if_neg h5]

/-- Witness for `dispatch_invalid_command` on the line `"qwerty 1"`. -/
theorem dispatch_invalid_command_witness :
    processLine ("qwerty 1").toList [] =
      .ok (.next ("Invalid command.").toList []) :=
  dispatch_invalid_command (("qwerty 1").toList) []
    (("qwerty").toList) [("1").toList] (by decide) (by decide)

/-- C10: `show_phone` on a name absent from the contact book returns the
literal `"Contact not found."` without raising, and a `phone <name>` line
for such a name leaves the book exactly as it was. -/
theorem show_phone_missing (name : PyStr) (rest : List PyStr)
    (contacts : Contacts) (line : PyStr)
    (habs : dictGet contacts name = none)
    (hsplit : pySplit line = ("phone").toList :: name :: rest) :
    show_phone (name :: rest) contacts =
      .ok (("Contact not found.").toList) ∧
    processLine line contacts =
      .ok (.next ("Contact not found.").toList contacts) := by
  have hsp : show_phone (name :: rest) contacts =
      .ok (("Contact not found.").toList) := by
    simp only [show_phone, habs]
  refine ⟨hsp, ?_⟩
  rw [processLine_cons line (("phone").toList) (name :: rest) contacts hsplit]
  have hlow : pyLower ("phone").toList = ("phone").toList := by decide
  rw [hlow]
  unfold dispatchCmd
  rw [if_neg (by decide), if_neg (by decide), if_neg (by decide),
    if_neg (by decide), if_pos rfl, hsp]
  rfl

/-- Witness for `show_phone_missing`: the line `"phone Bob"` on an empty
book. -/
theorem show_phone_missing_witness :
    show_phone [("Bob").toList] [] =
      .ok (("Contact not found.").toList) ∧
    processLine ("phone Bob").toList [] =
      .ok (.next ("Contact not found.").toList []) :=
  show_phone_missing (("Bob").toList) [] [] (("phone Bob").toList)
    (by decide) (by decide)

end AssistantBot
